import Mathlib

/-!
Verification of the Wii WAD container decoder (`WiiWAD.cpp`) against its
natural-language specification.  The decoder's data model and operations are
embedded shallowly: big-endian multi-byte fields are represented by their
decoded `Nat` values, machine 32-bit arithmetic is made explicit with `% 2^32`,
byte buffers are `List Nat`, and the external collaborators (byte source reads,
the AES primitive, the key manager verdict, the system language, the system
menu version table) are oracle inputs or function parameters.
-/

set_option maxHeartbeats 1000000

namespace WiiWADModel

/-- Big-endian decode of the four bytes of `l` starting at offset `off`. -/
def be32at (l : List Nat) (off : Nat) : Nat :=
  ((l.drop off).take 4).foldl (fun a b => a * 256 + b) 0

/-- Embeds `WiiWADPrivate::toNext64` instantiated at `uint32_t`:
`(val + (T)63) & ~((T)63)`, i.e. `(v + 63) & 0xFFFFFFC0` in unsigned 32-bit
arithmetic (the addition wraps modulo `2^32`). -/
def toNext64 (v : Nat) : Nat :=
  ((v + 63) % 2 ^ 32) &&& 0xFFFFFFC0

/-- Modelled from the spec: `sizeof(Wii_WAD_Header)` (wii_wad.h is not under
src); the spec fixes the expected header size at 0x20. -/
def sizeof_Wii_WAD_Header : Nat := 0x20

/-- Modelled from the spec: `sizeof(RVL_Ticket)` (wii_structs.h is not under
src); the spec's concrete scenario gives ticket size 0x2A4 as meeting the
minimum ticket structure size exactly. -/
def sizeof_RVL_Ticket : Nat := 0x2A4

/-- Modelled from the spec: `sizeof(RVL_TMD_Header)` (wii_structs.h is not
under src); 0x1E4, used only as the expected byte count of the TMD header
read. -/
def sizeof_RVL_TMD_Header : Nat := 0x1E4

/-- Modelled from the spec: `sizeof(Wii_Content_Bin_Header)` (wii_wad.h is not
under src); the minimal content sub-header that must follow the four rounded
sections. -/
def sizeof_Wii_Content_Bin_Header : Nat := 0x40

/-- The `WII_WAD_TYPE_Is` constant: 'Is\0\0' as a big-endian 32-bit value. -/
def WII_WAD_TYPE_Is : Nat := 0x49730000

/-- The `WII_WAD_TYPE_ib` constant: 'ib\0\0' as a big-endian 32-bit value. -/
def WII_WAD_TYPE_ib : Nat := 0x69620000

/-- The `WII_WAD_TYPE_Bk` constant: 'Bk\0\0' as a big-endian 32-bit value. -/
def WII_WAD_TYPE_Bk : Nat := 0x426B0000

/-- Embeds `Wii_WAD_Header` (wii_wad.h): eight 32-bit big-endian fields, represented
by their decoded values. -/
structure Wii_WAD_Header where
  header_size : Nat
  type : Nat
  cert_chain_size : Nat
  reserved : Nat
  ticket_size : Nat
  tmd_size : Nat
  data_size : Nat
  footer_size : Nat
deriving DecidableEq

/-- Embeds `DetectInfo` as consumed by `WiiWAD::isRomSupported_static`: the probe
address, the logical size of the probe buffer, the header data (none models a
null `pData`), and the total file size (`int64_t`). -/
structure DetectInfo where
  header_addr : Nat
  header_size : Nat
  header_pData : Option Wii_WAD_Header
  szFile : Int
deriving DecidableEq

/-- The expected-size sum computed by `WiiWAD::isRomSupported_static`
(lines 522-527): four `toNext64`-rounded section sizes plus
`sizeof(Wii_Content_Bin_Header)`, accumulated in an `unsigned int`. -/
def expected_size (h : Wii_WAD_Header) : Nat :=
  (toNext64 h.header_size + toNext64 h.cert_chain_size +
   toNext64 h.ticket_size + toNext64 h.tmd_size +
   sizeof_Wii_Content_Bin_Header) % 2 ^ 32

/-- Embeds `WiiWAD::isRomSupported_static` (lines 485-535): returns 0 when the probe
is accepted as a Wii WAD, -1 otherwise. -/
def isRomSupported_static (info : DetectInfo) : Int :=
  match info.header_pData with
  | none => -1
  | some h =>
    if info.header_addr ≠ 0 ∨ info.header_size < sizeof_Wii_WAD_Header then
      -1
    else if h.header_size ≠ sizeof_Wii_WAD_Header then
      -1
    else if h.type ≠ WII_WAD_TYPE_Is ∧ h.type ≠ WII_WAD_TYPE_ib ∧
            h.type ≠ WII_WAD_TYPE_Bk then
      -1
    else if h.ticket_size < sizeof_RVL_Ticket then
      -1
    else if (expected_size h : Int) > info.szFile then
      -1
    else
      0

/-- The least multiple of 64 that is greater than or equal to `v`, in exact
(unbounded) arithmetic; this is the spec's reading of "rounded up to a
multiple of 64". -/
def roundUp64 (v : Nat) : Nat := (v + 63) / 64 * 64

/-- The exact-arithmetic structural minimum the spec describes: the sum of the
four section sizes each rounded up to a multiple of 64, plus the content
sub-header size, with no 32-bit wraparound. -/
def exact_expected_size (h : Wii_WAD_Header) : Nat :=
  roundUp64 h.header_size + roundUp64 h.cert_chain_size +
  roundUp64 h.ticket_size + roundUp64 h.tmd_size +
  sizeof_Wii_Content_Bin_Header

theorem land_c0_eq (x : Nat) (hx : x < 2 ^ 32) :
    x &&& 0xFFFFFFC0 = x / 64 * 64 := by
  have hrhs : x / 64 * 64 = 2 ^ 6 * (x >>> 6) := by
    rw [Nat.shiftRight_eq_div_pow]
    norm_num [Nat.mul_comm]
  rw [hrhs]
  apply Nat.eq_of_testBit_eq
  intro i
  rw [Nat.testBit_and, Nat.testBit_mul_pow_two, Nat.testBit_shiftRight]
  rw [show (0xFFFFFFC0 : Nat) = 2 ^ 6 * (2 ^ 26 - 1) from by norm_num,
    Nat.testBit_mul_pow_two, Nat.testBit_two_pow_sub_one]
  rcases Nat.lt_or_ge i 6 with h6 | h6
  · simp [show ¬ i ≥ 6 from by omega]
  · have he : 6 + (i - 6) = i := by omega
    rw [he]
    rcases Nat.lt_or_ge i 32 with h32 | h32
    · simp [show i ≥ 6 from h6, show i - 6 < 26 from by omega, Bool.and_comm]
    · have hxi : x.testBit i = false :=
        Nat.testBit_lt_two_pow
          (lt_of_lt_of_le hx (Nat.pow_le_pow_right (by norm_num) h32))
      simp [hxi, show ¬ (i - 6 < 26) from by omega]

theorem toNext64_eq_roundUp64 (v : Nat) (hv : v + 63 < 2 ^ 32) :
    toNext64 v = roundUp64 v := by
  unfold toNext64 roundUp64
  rw [Nat.mod_eq_of_lt hv, land_c0_eq _ hv]

/-- The spec's concrete scenario header: header_size 0x20, accepted type,
cert chain 0x2A0, ticket 0x2A4, and small TMD/data sections. -/
def hdrScenario : Wii_WAD_Header :=
  { header_size := 0x20, type := WII_WAD_TYPE_Is, cert_chain_size := 0x2A0,
    reserved := 0, ticket_size := 0x2A4, tmd_size := 0x208,
    data_size := 0x40000, footer_size := 0 }

/-- A header whose declared ticket size makes `toNext64` wrap around 2^32:
`toNext64 0xFFFFFFC1 = 0`. -/
def hdrWrap : Wii_WAD_Header :=
  { header_size := 0x20, type := WII_WAD_TYPE_Is, cert_chain_size := 0,
    reserved := 0, ticket_size := 0xFFFFFFC1, tmd_size := 0,
    data_size := 0, footer_size := 0 }

/-- A probe for `hdrWrap` over a file of only 0x1000 bytes. -/
def infoWrap : DetectInfo :=
  { header_addr := 0, header_size := 0x20, header_pData := some hdrWrap,
    szFile := 0x1000 }

/-- C6 counterexample: the claim asserts `v ≤ toNext64 v < v + 64` for every
unsigned 32-bit `v`, but at `v = 0xFFFFFFFF` the mod-2^32 addition wraps and
`toNext64 v = 0 < v`. -/
theorem claim_C6_counterexample :
    toNext64 0xFFFFFFFF = 0 ∧ ¬ (0xFFFFFFFF ≤ toNext64 0xFFFFFFFF) := by
  decide

/-- C6 (amended): for every `v` such that `v + 63` does not wrap modulo 2^32
(`v ≤ 2^32 - 64`), `toNext64 v = (v + 63) & ~63` is the smallest multiple of
64 greater than or equal to `v` (so `v ≤ toNext64 v < v + 64`); and the
expected-size sum computed during detection equals the exact-arithmetic sum
of the four rounded section sizes plus the content sub-header size whenever
each section size avoids rounding wraparound and the exact sum is below
2^32. -/
theorem claim_C6 :
    (∀ v : Nat, v ≤ 2 ^ 32 - 64 →
      v ≤ toNext64 v ∧ toNext64 v < v + 64 ∧ 64 ∣ toNext64 v ∧
      ∀ m : Nat, 64 ∣ m → v ≤ m → toNext64 v ≤ m) ∧
    (∀ h : Wii_WAD_Header,
      h.header_size ≤ 2 ^ 32 - 64 → h.cert_chain_size ≤ 2 ^ 32 - 64 →
      h.ticket_size ≤ 2 ^ 32 - 64 → h.tmd_size ≤ 2 ^ 32 - 64 →
      exact_expected_size h < 2 ^ 32 →
      expected_size h = exact_expected_size h) := by
  constructor
  · intro v hv
    have h63 : v + 63 < 2 ^ 32 := by omega
    rw [toNext64_eq_roundUp64 v h63]
    unfold roundUp64
    refine ⟨by omega, by omega, ⟨(v + 63) / 64, by omega⟩, ?_⟩
    intro m hm hvm
    obtain ⟨k, hk⟩ := hm
    subst hk
    omega
  · intro h h1 h2 h3 h4 hlt
    unfold expected_size
    rw [toNext64_eq_roundUp64 _ (by omega), toNext64_eq_roundUp64 _ (by omega),
      toNext64_eq_roundUp64 _ (by omega), toNext64_eq_roundUp64 _ (by omega)]
    have hsum : roundUp64 h.header_size + roundUp64 h.cert_chain_size +
        roundUp64 h.ticket_size + roundUp64 h.tmd_size +
        sizeof_Wii_Content_Bin_Header = exact_expected_size h := rfl
    rw [hsum, Nat.mod_eq_of_lt hlt]

/-- C6 witness: the amended theorem applied at `v = 100` and at the spec's
concrete scenario header. -/
theorem claim_C6_witness :
    (100 ≤ toNext64 100 ∧ toNext64 100 < 164 ∧ 64 ∣ toNext64 100 ∧
      ∀ m : Nat, 64 ∣ m → 100 ≤ m → toNext64 100 ≤ m) ∧
    expected_size hdrScenario = exact_expected_size hdrScenario :=
  ⟨claim_C6.1 100 (by norm_num),
   claim_C6.2 hdrScenario (by decide) (by decide) (by decide) (by decide)
     (by decide)⟩

/-- C1 counterexample: the claim requires rejection whenever the total file
size is below the exact sum of the rounded section sizes plus the content
sub-header, but with ticket_size = 0xFFFFFFC1 the 32-bit rounding wraps to 0
and the probe is accepted even though the exact structural minimum far
exceeds the 0x1000-byte file. -/
theorem claim_C1_counterexample :
    isRomSupported_static infoWrap = 0 ∧
    (exact_expected_size hdrWrap : Int) > infoWrap.szFile := by
  constructor
  · decide
  · decide

/-- C1 (amended): for every primary probe (address 0) carrying a header,
`isRomSupported_static` accepts (returns a system ID ≥ 0) iff the probe
buffer holds at least the fixed WAD header, the decoded header_size field
equals 0x20, the type field is one of 'Is', 'ib', 'Bk', the declared ticket
size is at least the minimum ticket structure size, and the total file size
is at least the expected-size sum as computed in unsigned 32-bit arithmetic
(each section size rounded with toNext64 and the sum taken modulo 2^32);
otherwise it rejects with -1. -/
theorem claim_C1 (info : DetectInfo) (h : Wii_WAD_Header)
    (hp : info.header_pData = some h) (ha : info.header_addr = 0) :
    (0 ≤ isRomSupported_static info ↔
      (sizeof_Wii_WAD_Header ≤ info.header_size ∧
       h.header_size = sizeof_Wii_WAD_Header ∧
       (h.type = WII_WAD_TYPE_Is ∨ h.type = WII_WAD_TYPE_ib ∨
         h.type = WII_WAD_TYPE_Bk) ∧
       sizeof_RVL_Ticket ≤ h.ticket_size ∧
       (expected_size h : Int) ≤ info.szFile)) ∧
    (isRomSupported_static info = 0 ∨ isRomSupported_static info = -1) := by
  obtain ⟨addr, hsize, pData, szFile⟩ := info
  simp only at hp ha
  subst hp
  subst ha
  simp only [isRomSupported_static]
  split_ifs with h1 h2 h3 h4 h5
  · refine ⟨⟨fun hc => absurd hc (by norm_num), fun hc => ?_⟩, Or.inr rfl⟩
    exfalso
    rcases h1 with h1 | h1
    · exact h1 rfl
    · omega
  · refine ⟨⟨fun hc => absurd hc (by norm_num), fun hc => ?_⟩, Or.inr rfl⟩
    exact (h2 hc.2.1).elim
  · refine ⟨⟨fun hc => absurd hc (by norm_num), fun hc => ?_⟩, Or.inr rfl⟩
    exfalso
    tauto
  · refine ⟨⟨fun hc => absurd hc (by norm_num), fun hc => ?_⟩, Or.inr rfl⟩
    exfalso
    omega
  · refine ⟨⟨fun hc => absurd hc (by norm_num), fun hc => ?_⟩, Or.inr rfl⟩
    exfalso
    have := hc.2.2.2.2
    omega
  · refine ⟨⟨fun _ => ?_, fun _ => by norm_num⟩, Or.inl rfl⟩
    push_neg at h1 h3
    refine ⟨by omega, by omega, by tauto, by omega, by omega⟩

/-- C1 witness: the amended theorem applied to the spec's concrete scenario
probe, which is accepted. -/
theorem claim_C1_witness :
    0 ≤ isRomSupported_static
      { header_addr := 0, header_size := 0x20,
        header_pData := some hdrScenario, szFile := 0x41000 } :=
  (claim_C1 _ hdrScenario rfl rfl).1.mpr
    ⟨by norm_num [sizeof_Wii_WAD_Header],
     by norm_num [hdrScenario, sizeof_Wii_WAD_Header],
     Or.inl rfl,
     by norm_num [hdrScenario, sizeof_RVL_Ticket],
     by decide⟩

/-- The character codes of a Lean string, used to embed C byte strings. -/
def strCodes (s : String) : List Nat := s.toList.map (fun c => c.toNat)

/-- The debug-signer comparison constant of the constructor (line 368):
`"Root-CA00000002-XS00000006"`.  `memcmp` compares `sizeof(issuer_rvt)` = 27
bytes, i.e. the 26 characters plus the NUL terminator. -/
def issuer_rvt : List Nat := strCodes "Root-CA00000002-XS00000006" ++ [0]

/-- Embeds `RVL_Ticket` (wii_structs.h): the fields the decoder reads.  Byte arrays
are kept as stored (big-endian order). -/
structure RVL_Ticket where
  signature_issuer : List Nat
  enc_title_key : List Nat
  title_id : List Nat
  common_key_index : Nat
deriving DecidableEq

/-- Modelled from the spec: `WiiPartition::EncryptionKeys` (WiiPartition.hpp
is not under src).  Index 6 is the debug (RVT) key, matching the seventh
entry ("Debug") of the key display-name table in `loadFieldData`. -/
def Key_Rvt_Debug : Nat := 6

/-- Modelled from the spec: `WiiPartition::Key_Max` = 7, one past the seven
key display names of `loadFieldData`. -/
def Key_Max : Nat := 7

/-- Key-index selection of the `WiiWAD` constructor (lines 367-380): the
debug key when the issuer matches `issuer_rvt` byte-for-byte; otherwise the
common-key index byte, with indices above 2 falling back to 0. -/
def selectKeyIndex (t : RVL_Ticket) : Nat :=
  if t.signature_issuer.take 27 = issuer_rvt then
    Key_Rvt_Debug
  else if 2 < t.common_key_index then
    0
  else
    t.common_key_index

/-- C4: a ticket whose signature issuer equals the debug-signer string
(including the NUL) selects the debug key index; otherwise the common-key
index byte selects the retail key, with every value above 2 falling back to
index 0 rather than being treated as invalid. -/
theorem claim_C4 (t : RVL_Ticket) :
    (t.signature_issuer.take 27 = issuer_rvt →
      selectKeyIndex t = Key_Rvt_Debug) ∧
    (t.signature_issuer.take 27 ≠ issuer_rvt →
      (2 < t.common_key_index → selectKeyIndex t = 0) ∧
      (t.common_key_index ≤ 2 →
        selectKeyIndex t = t.common_key_index)) := by
  unfold selectKeyIndex
  split_ifs with h1 h2 <;> simp_all

/-- A ticket signed by the debug issuer. -/
def ticketDebug : RVL_Ticket :=
  { signature_issuer := issuer_rvt ++ List.replicate 37 0,
    enc_title_key := List.replicate 16 0,
    title_id := List.replicate 8 0,
    common_key_index := 0 }

/-- A retail ticket with an out-of-range common-key index. -/
def ticketIdx9 : RVL_Ticket :=
  { signature_issuer := List.replicate 64 0,
    enc_title_key := List.replicate 16 0,
    title_id := List.replicate 8 0,
    common_key_index := 9 }

/-- C4 witness: the theorem applied to a debug-signed ticket and to a retail
ticket with common-key index 9 (falls back to 0). -/
theorem claim_C4_witness :
    selectKeyIndex ticketDebug = Key_Rvt_Debug ∧
    selectKeyIndex ticketIdx9 = 0 :=
  ⟨(claim_C4 ticketDebug).1 (by decide),
   ((claim_C4 ticketIdx9).2 (by decide)).1 (by decide)⟩

/-- Modelled from the spec: `sizeof(Wii_IMET_t)` = 0x600 (wii_banner.h is not
under src): the size of the banner/name block read through the CBC reader. -/
def sizeof_Wii_IMET : Nat := 0x600

/-- The `WII_IMET_MAGIC` constant: 'IMET' as a big-endian 32-bit value. -/
def WII_IMET_MAGIC : Nat := 0x494D4554

/-- Modelled from the spec: `WII_LANG_ENGLISH` = 1 (wii_banner.h is not under
src): the default language substituted when the preferred language's first
line is empty. -/
def WII_LANG_ENGLISH : Nat := 1

/-- Embeds `Wii_IMET_t` (wii_banner.h): the banner magic and the 10-language,
2-line, 21-unit UTF-16BE name table, kept as code-unit lists. -/
structure Wii_IMET where
  magic : Nat
  names : List (List (List Nat))
deriving DecidableEq

/-- Embeds `RVL_TMD_Header` (wii_structs.h): the fields the decoder reads.  The
title ID and required-system version are kept as their 8 stored (big-endian)
bytes; the title version is the decoded big-endian 16-bit value. -/
structure RVL_TMD_Header where
  title_id : List Nat
  title_version : Nat
  sys_version : List Nat
deriving DecidableEq

/-- Modelled from the spec: `KeyManager::VerifyResult` (KeyManager.hpp is not
under src), per the spec's enumeration; `Unknown` is the constructor's
initial `VERIFY_UNKNOWN`, `DecryptionUnsupported` is `VERIFY_NO_SUPPORT`. -/
inductive VerifyResult
  | Ok
  | KeyNotFound
  | IncorrectKey
  | VerificationDataMissing
  | DecryptionUnsupported
  | Unknown
deriving DecidableEq

/-- The parameters a `CBCReader` is constructed with (file base offset,
window length, 16-byte key, 16-byte initial chaining value). -/
structure CBCReaderParams where
  offset : Nat
  length : Nat
  key : List Nat
  iv : List Nat
deriving DecidableEq

/-- The labels of the fields `loadFieldData` can add, one tag per distinct
`C_("WiiWAD", ...)` label string. -/
inductive FieldTag
  | Warning
  | TitleID
  | GameID
  | TitleVersion
  | Region
  | IOSVersion
  | EncryptionKey
  | GameInfo
deriving DecidableEq

/-- The label string each tag stands for. -/
def labelOf : FieldTag → String
  | FieldTag.Warning => "Warning"
  | FieldTag.TitleID => "Title ID"
  | FieldTag.GameID => "Game ID"
  | FieldTag.TitleVersion => "Title Version"
  | FieldTag.Region => "Region"
  | FieldTag.IOSVersion => "IOS Version"
  | FieldTag.EncryptionKey => "Encryption Key"
  | FieldTag.GameInfo => "Game Info"

/-- The decoder instance state after construction: validity, whether the
owned file handle is still held, the parsed structs, key selection/status,
the optional CBC sub-reader, and the lazily populated field and metadata
lists. -/
structure WiiWADState where
  fileOpen : Bool
  isValid : Bool
  wadHeader : Wii_WAD_Header
  ticket : RVL_Ticket
  tmdHeader : RVL_TMD_Header
  key_idx : Nat
  key_status : VerifyResult
  cbcReader : Option CBCReaderParams
  contentHeaderRead : Bool
  imet : Wii_IMET
  fields : List (FieldTag × List Nat)
  metaData : Option (List (String × List Nat))
deriving DecidableEq

/-- The all-zero WAD header (`memset` in the private-class constructor). -/
def zeroWADHeader : Wii_WAD_Header := ⟨0, 0, 0, 0, 0, 0, 0, 0⟩

/-- The all-zero ticket (`memset` in the private-class constructor). -/
def zeroTicket : RVL_Ticket :=
  { signature_issuer := List.replicate 64 0,
    enc_title_key := List.replicate 16 0,
    title_id := List.replicate 8 0,
    common_key_index := 0 }

/-- The all-zero TMD header (`memset` in the private-class constructor). -/
def zeroTMD : RVL_TMD_Header :=
  { title_id := List.replicate 8 0, title_version := 0,
    sys_version := List.replicate 8 0 }

/-- The all-zero IMET block (`memset` in the private-class constructor). -/
def zeroIMET : Wii_IMET :=
  { magic := 0,
    names := List.replicate 10 (List.replicate 2 (List.replicate 21 0)) }

/-- The oracle inputs of one constructor run: whether the file handle was
duplicated, the file size, and for each byte-source read the byte count it
returns together with the data it fills in; plus the key manager's verdict
and key bytes. -/
structure WADInputs where
  fileOpenOk : Bool
  szFile : Int
  headerReadSize : Nat
  header : Wii_WAD_Header
  ticketReadSize : Nat
  ticket : RVL_Ticket
  tmdReadSize : Nat
  tmdHeader : RVL_TMD_Header
  keyData : List Nat
  keyStatus : VerifyResult
  contentHeaderReadSize : Nat
  imetReadSize : Nat
  imetRead : Wii_IMET

/-- The state built by the private-class constructor, before any read. -/
def initialState (inp : WADInputs) : WiiWADState :=
  { fileOpen := inp.fileOpenOk, isValid := false,
    wadHeader := zeroWADHeader, ticket := zeroTicket, tmdHeader := zeroTMD,
    key_idx := Key_Max, key_status := VerifyResult.Unknown,
    cbcReader := none, contentHeaderRead := false, imet := zeroIMET,
    fields := [], metaData := none }

/-- The `DetectInfo` the constructor builds from the header it read
(lines 332-337). -/
def ctorDetectInfo (inp : WADInputs) : DetectInfo :=
  { header_addr := 0, header_size := sizeof_Wii_WAD_Header,
    header_pData := some inp.header, szFile := inp.szFile }

/-- The `WiiWAD` constructor (lines 309-460), decryption-enabled build.  The
AES-CBC decryption primitive is passed as `cipher key iv ciphertext`; read
outcomes and the key manager's verdict are the oracle inputs. -/
def wiiWADCtor (cipher : List Nat → List Nat → List Nat → List Nat)
    (inp : WADInputs) : WiiWADState :=
  let st0 := initialState inp
  if ¬ inp.fileOpenOk then st0
  else if inp.headerReadSize ≠ sizeof_Wii_WAD_Header then
    { st0 with fileOpen := false }
  else
    let st1 := { st0 with wadHeader := inp.header }
    if isRomSupported_static (ctorDetectInfo inp) < 0 then
      { st1 with isValid := false, fileOpen := false }
    else
      let st2 := { st1 with isValid := true }
      if inp.ticketReadSize ≠ sizeof_RVL_Ticket then
        { st2 with isValid := false, fileOpen := false }
      else
        let st3 := { st2 with ticket := inp.ticket }
        if inp.tmdReadSize ≠ sizeof_RVL_TMD_Header then
          { st3 with isValid := false, fileOpen := false }
        else
          let st4 := { st3 with tmdHeader := inp.tmdHeader }
          let st5 := { st4 with
            key_idx := selectKeyIndex inp.ticket
            key_status := inp.keyStatus }
          if inp.keyStatus ≠ VerifyResult.Ok then st5
          else
            let iv := inp.ticket.title_id ++ List.replicate 8 0
            let title_key := cipher inp.keyData iv inp.ticket.enc_title_key
            let addr1 := (toNext64 inp.header.header_size +
              toNext64 inp.header.cert_chain_size) % 2 ^ 32
            let addr2 := (addr1 + toNext64 inp.header.ticket_size) % 2 ^ 32
            let addr3 := (addr2 + toNext64 inp.header.tmd_size) % 2 ^ 32
            let reader : CBCReaderParams :=
              { offset := addr3, length := inp.header.data_size,
                key := title_key, iv := List.replicate 16 0 }
            let st6 := { st5 with cbcReader := some reader }
            if inp.contentHeaderReadSize = sizeof_Wii_Content_Bin_Header then
              let st7 := { st6 with contentHeaderRead := true }
              if inp.imetReadSize = sizeof_Wii_IMET then
                { st7 with imet := inp.imetRead }
              else st7
            else st6

/-- Embeds `WiiWAD::close` (lines 465-476): deletes the CBC sub-reader and nulls the
pointer, then the superclass close releases the file handle. -/
def wadClose (st : WiiWADState) : WiiWADState :=
  { st with cbcReader := none, fileOpen := false }

/-- The state of an instance whose construction failed structurally: it is
invalid, the owned file handle has been released, and no later validation
step ran (the key selection, key verification and CBC-reader construction
all left their initial values). -/
def ctorFailed (st : WiiWADState) : Prop :=
  st.isValid = false ∧ st.fileOpen = false ∧
  st.key_status = VerifyResult.Unknown ∧ st.key_idx = Key_Max ∧
  st.cbcReader = none

/-- C8: for every constructor run on an open file, each structural failure —
short header read, detection rejection, short ticket read, short TMD-header
read — leaves the instance invalid with the owned file handle released, and
no later validation step runs (key status and index keep their initial
values and no CBC reader is created). -/
theorem claim_C8 (cipher : List Nat → List Nat → List Nat → List Nat)
    (inp : WADInputs) (hopen : inp.fileOpenOk = true) :
    (inp.headerReadSize ≠ sizeof_Wii_WAD_Header →
      ctorFailed (wiiWADCtor cipher inp)) ∧
    (inp.headerReadSize = sizeof_Wii_WAD_Header →
      isRomSupported_static (ctorDetectInfo inp) < 0 →
      ctorFailed (wiiWADCtor cipher inp)) ∧
    (inp.headerReadSize = sizeof_Wii_WAD_Header →
      0 ≤ isRomSupported_static (ctorDetectInfo inp) →
      inp.ticketReadSize ≠ sizeof_RVL_Ticket →
      ctorFailed (wiiWADCtor cipher inp)) ∧
    (inp.headerReadSize = sizeof_Wii_WAD_Header →
      0 ≤ isRomSupported_static (ctorDetectInfo inp) →
      inp.ticketReadSize = sizeof_RVL_Ticket →
      inp.tmdReadSize ≠ sizeof_RVL_TMD_Header →
      ctorFailed (wiiWADCtor cipher inp)) := by
  refine ⟨?_, ?_, ?_, ?_⟩
  · intro h1
    simp [wiiWADCtor, ctorFailed, initialState, hopen, h1]
  · intro h1 h2
    simp [wiiWADCtor, ctorFailed, initialState, hopen, h1, h2]
  · intro h1 h2 h3
    simp [wiiWADCtor, ctorFailed, initialState, hopen, h1, h3,
      Int.not_lt.mpr h2]
  · intro h1 h2 h3 h4
    simp [wiiWADCtor, ctorFailed, initialState, hopen, h1, h3, h4,
      Int.not_lt.mpr h2]

/-- A well-formed constructor run on the spec's concrete scenario: all reads
full-length, debug-signed ticket, key verification succeeding. -/
def inputsOkBase : WADInputs :=
  { fileOpenOk := true, szFile := 0x41000,
    headerReadSize := sizeof_Wii_WAD_Header, header := hdrScenario,
    ticketReadSize := sizeof_RVL_Ticket, ticket := ticketDebug,
    tmdReadSize := sizeof_RVL_TMD_Header, tmdHeader := zeroTMD,
    keyData := List.replicate 16 0, keyStatus := VerifyResult.Ok,
    contentHeaderReadSize := 0, imetReadSize := 0, imetRead := zeroIMET }

/-- C8 witness: the theorem applied to a run whose header read returns only
16 of the 32 requested bytes. -/
theorem claim_C8_witness :
    ctorFailed (wiiWADCtor (fun _ _ ct => ct)
      { inputsOkBase with headerReadSize := 16 }) :=
  (claim_C8 (fun _ _ ct => ct) { inputsOkBase with headerReadSize := 16 }
    rfl).1 (by decide)

/-- C5: whenever key verification returns Ok (and construction reached it),
the title key handed to the CBC reader is the AES-CBC decryption of the
ticket's embedded encrypted title key under the retrieved system key, with
an initial chaining value whose high 8 bytes are the ticket's stored
(big-endian) title ID and whose low 8 bytes are zero; the CBC reader is
constructed over the content region (the four rounded section sizes into the
file, for the declared data size) with that title key and an all-zero
data-area IV. -/
theorem claim_C5 (cipher : List Nat → List Nat → List Nat → List Nat)
    (inp : WADInputs) (hopen : inp.fileOpenOk = true)
    (hh : inp.headerReadSize = sizeof_Wii_WAD_Header)
    (hdet : 0 ≤ isRomSupported_static (ctorDetectInfo inp))
    (ht : inp.ticketReadSize = sizeof_RVL_Ticket)
    (htmd : inp.tmdReadSize = sizeof_RVL_TMD_Header)
    (hkey : inp.keyStatus = VerifyResult.Ok) :
    (wiiWADCtor cipher inp).cbcReader = some
      { offset := (toNext64 inp.header.header_size +
          toNext64 inp.header.cert_chain_size +
          toNext64 inp.header.ticket_size +
          toNext64 inp.header.tmd_size) % 2 ^ 32,
        length := inp.header.data_size,
        key := cipher inp.keyData
          (inp.ticket.title_id ++ List.replicate 8 0)
          inp.ticket.enc_title_key,
        iv := List.replicate 16 0 } := by
  simp [wiiWADCtor, initialState, hopen, hh, ht, htmd, hkey,
    Int.not_lt.mpr hdet]
  split_ifs <;> simp

/-- The C `isalnum` predicate on a byte, in the C locale: ASCII digits and letters. -/
def isalnumByte (c : Nat) : Bool :=
  (48 ≤ c && c ≤ 57) || (65 ≤ c && c ≤ 90) || (97 ≤ c && c ≤ 122)

/-- The C `isupper` predicate on a byte, in the C locale. -/
def isupperByte (c : Nat) : Bool := 65 ≤ c && c ≤ 90

/-- The character code of an uppercase hex digit. -/
def hexDigitCode (d : Nat) : Nat := if d < 10 then 48 + d else 55 + d

/-- Fixed-width uppercase hex rendering (`%08X`, `%02X`). -/
def hexCodes (width n : Nat) : List Nat :=
  (List.range width).map
    (fun i => hexDigitCode (n >>> (4 * (width - 1 - i)) &&& 15))

/-- Decimal rendering, as printed by `%u`. -/
def decCodes (n : Nat) : List Nat := strCodes (toString n)

/-- Big-endian decode of the first eight bytes of `l` (a stored 64-bit
field). -/
def be64at (l : List Nat) : Nat :=
  (l.take 8).foldl (fun a b => a * 256 + b) 0

/-- Modelled from the spec: the UTF-16BE-to-UTF-8 conversion of one
fixed-width 21-unit name line (`utf16be_to_utf8(..., 21)`; TextFuncs is not
under src).  The conversion reads at most 21 units and stops at the first
NUL; the result is kept as code units rather than UTF-8 bytes. -/
def utf16Fixed21 (units : List Nat) : List Nat :=
  (units.take 21).takeWhile (fun u => u ≠ 0)

/-- Reads `imet.names[lang][line]`. -/
def nameAt (m : Wii_IMET) (lang line : Nat) : List Nat :=
  (m.names.getD lang []).getD line []

/-- Embeds `WiiWADPrivate::getGameInfo` (lines 163-200), decryption-enabled build.
`sysLang` is the result of the external `NintendoLanguage::getWiiLanguage()`:
the banner is rejected unless its magic is 'IMET'; the language falls back to
English when the preferred language's first line starts with NUL; the one or
two lines are joined with a single newline, the second included only when its
first code unit is nonzero. -/
def getGameInfo (m : Wii_IMET) (sysLang : Nat) : List Nat :=
  if m.magic ≠ WII_IMET_MAGIC then []
  else
    let lang := if (nameAt m sysLang 0).headD 0 = 0 then WII_LANG_ENGLISH
                else sysLang
    let info := utf16Fixed21 (nameAt m lang 0)
    if (nameAt m lang 1).headD 0 ≠ 0 then
      info ++ [10] ++ utf16Fixed21 (nameAt m lang 1)
    else info

/-- Modelled from the spec: `KeyManager::verifyResultToString` (KeyManager
is not under src): the display explanation of each verification outcome,
with the code's own fallback text for an unmapped result. -/
def verifyResultToString : VerifyResult → List Nat
  | VerifyResult.Ok => strCodes "Key is OK"
  | VerifyResult.KeyNotFound => strCodes "Key not found"
  | VerifyResult.IncorrectKey => strCodes "Key is incorrect"
  | VerifyResult.VerificationDataMissing =>
      strCodes "Verification data is missing"
  | VerifyResult.DecryptionUnsupported =>
      strCodes "Decryption is not supported in this build"
  | VerifyResult.Unknown => strCodes "Unknown error. (THIS IS A BUG!)"

/-- The region character determined by `loadFieldData` (lines 729-743):
for IOS/System Menu title IDs (hi = 1) the fourth character of the System
Menu version string (or NUL); otherwise the fourth character of the ID4,
i.e. byte 7 of the title ID.  `menuLookup` stands for the external
`WiiSystemMenuVersion::lookup` table. -/
def regionChar (menuLookup : Nat → Option (List Nat))
    (tmd : RVL_TMD_Header) : Nat :=
  if be32at tmd.title_id 0 = 1 then
    if be32at tmd.title_id 4 = 2 then
      match menuLookup tmd.title_version with
      | some ver => ver.getD 3 0
      | none => 0
    else 0
  else tmd.title_id.getD 7 0

/-- The region display string of `loadFieldData` (lines 747-777), or none
when the region character is unrecognized. -/
def regionString (c : Nat) : Option (List Nat) :=
  if c = 0 ∨ c = 65 then some (strCodes "Region-Free")
  else if c = 69 then some (strCodes "USA")
  else if c = 74 then some (strCodes "Japan")
  else if c = 87 then some (strCodes "Taiwan")
  else if c = 75 ∨ c = 84 ∨ c = 81 then some (strCodes "South Korea")
  else if c = 67 then some (strCodes "China")
  else if isupperByte c then some (strCodes "Europe")
  else none

/-- The encryption-key display names of `loadFieldData` (lines 802-810),
indexed by `WiiPartition::EncryptionKeys`. -/
def encKeyNames : List (List Nat) :=
  [strCodes "Retail", strCodes "Korean", strCodes "vWii", strCodes "SD AES",
   strCodes "SD IV", strCodes "SD MD5", strCodes "Debug"]

/-- The field list `WiiWAD::loadFieldData` builds on its first successful
call (lines 689-828): an optional warning, the title ID, an optional game
ID (only when bytes 4-7 of the TMD title ID are all alphanumeric), the
title version, the region, an optional required-IOS version, the encryption
key name, and the banner game info when available. -/
def buildFields (menuLookup : Nat → Option (List Nat)) (sysLang : Nat)
    (st : WiiWADState) : List (FieldTag × List Nat) :=
  let tmd := st.tmdHeader
  let warningFields :=
    if st.key_status ≠ VerifyResult.Ok then
      [(FieldTag.Warning, verifyResultToString st.key_status)]
    else []
  let titleIDField :=
    [(FieldTag.TitleID, hexCodes 8 (be32at tmd.title_id 0) ++ [45] ++
      hexCodes 8 (be32at tmd.title_id 4))]
  let gameIDField :=
    if isalnumByte (tmd.title_id.getD 4 0) ∧
       isalnumByte (tmd.title_id.getD 5 0) ∧
       isalnumByte (tmd.title_id.getD 6 0) ∧
       isalnumByte (tmd.title_id.getD 7 0) then
      [(FieldTag.GameID, (tmd.title_id.drop 4).take 4)]
    else []
  let tv := tmd.title_version
  let titleVersionField :=
    [(FieldTag.TitleVersion, decCodes (tv / 256) ++ [46] ++
      decCodes (tv % 256) ++ strCodes " (v" ++ decCodes tv ++ [41])]
  let rc := regionChar menuLookup tmd
  let regionField :=
    [(FieldTag.Region, (regionString rc).getD
      (strCodes "Unknown (0x" ++ hexCodes 2 (rc % 256) ++ [41]))]
  let ios_hi := be32at tmd.sys_version 0
  let ios_lo := be32at tmd.sys_version 4
  let iosField :=
    if ios_hi = 1 ∧ 2 < ios_lo ∧ ios_lo < 0x300 then
      [(FieldTag.IOSVersion, strCodes "IOS" ++ decCodes ios_lo)]
    else if be64at tmd.sys_version ≠ 0 then
      [(FieldTag.IOSVersion, hexCodes 8 ios_hi ++ [45] ++ hexCodes 8 ios_lo)]
    else []
  let encKeyField :=
    [(FieldTag.EncryptionKey,
      if st.key_idx < Key_Max then encKeyNames.getD st.key_idx []
      else strCodes "Unknown")]
  let gameInfo := getGameInfo st.imet sysLang
  let gameInfoField :=
    if gameInfo ≠ [] then [(FieldTag.GameInfo, gameInfo)] else []
  warningFields ++ titleIDField ++ gameIDField ++ titleVersionField ++
    regionField ++ iosField ++ encKeyField ++ gameInfoField

/-- Embeds `WiiWAD::loadFieldData` (lines 675-829): cached-result guard, open-file
and validity guards, then the field-list population; the pair is the C
return value and the updated instance state. -/
def loadFieldData (menuLookup : Nat → Option (List Nat)) (sysLang : Nat)
    (st : WiiWADState) : Int × WiiWADState :=
  if st.fields ≠ [] then (0, st)
  else if ¬ st.fileOpen then (-9, st)
  else if ¬ st.isValid then (-5, st)
  else
    let fs := buildFields menuLookup sysLang st
    ((fs.length : Int), { st with fields := fs })

/-- Embeds `WiiWAD::loadMetaData` (lines 836-873): cached-result guard, open-file
and validity guards; the metadata object is created only when the decrypted
banner yields a nonempty first line, which becomes the title property. -/
def loadMetaData (sysLang : Nat) (st : WiiWADState) : Int × WiiWADState :=
  if st.metaData.isSome then (0, st)
  else if ¬ st.fileOpen then (-9, st)
  else if ¬ st.isValid then (-5, st)
  else
    let gameInfo := getGameInfo st.imet sysLang
    if gameInfo = [] then (-5, st)
    else
      let title := gameInfo.takeWhile (fun u => u ≠ 10)
      if title = [] then (-5, st)
      else (1, { st with metaData := some [("Title", title)] })

/-- C5 witness: the theorem applied to the concrete scenario run with the
identity cipher. -/
theorem claim_C5_witness :
    (wiiWADCtor (fun _ _ ct => ct) inputsOkBase).cbcReader = some
      { offset := (toNext64 inputsOkBase.header.header_size +
          toNext64 inputsOkBase.header.cert_chain_size +
          toNext64 inputsOkBase.header.ticket_size +
          toNext64 inputsOkBase.header.tmd_size) % 2 ^ 32,
        length := inputsOkBase.header.data_size,
        key := (fun _ _ ct => ct) inputsOkBase.keyData
          (inputsOkBase.ticket.title_id ++ List.replicate 8 0)
          inputsOkBase.ticket.enc_title_key,
        iv := List.replicate 16 0 } :=
  claim_C5 (fun _ _ ct => ct) inputsOkBase rfl rfl (by decide) rfl rfl rfl

/-- C7: a second call to `loadFieldData` after a successful first call
returns 0 immediately with the state (and thus the cached field list)
unchanged, guarded by the field list being non-empty; a second call to
`loadMetaData` is likewise a no-op once the metadata object exists; and
`close` is idempotent, the first call already leaving the sub-reader pointer
null. -/
theorem claim_C7 :
    (∀ (menuLookup : Nat → Option (List Nat)) (sysLang : Nat)
        (st : WiiWADState),
      0 < (loadFieldData menuLookup sysLang st).1 →
      loadFieldData menuLookup sysLang (loadFieldData menuLookup sysLang st).2
        = (0, (loadFieldData menuLookup sysLang st).2)) ∧
    (∀ (sysLang : Nat) (st : WiiWADState), st.metaData.isSome →
      loadMetaData sysLang st = (0, st)) ∧
    (∀ st : WiiWADState,
      (wadClose st).cbcReader = none ∧
      wadClose (wadClose st) = wadClose st) := by
  refine ⟨?_, ?_, ?_⟩
  · intro ml sl st h
    by_cases h1 : st.fields = []
    · by_cases h2 : st.fileOpen = true
      · by_cases h3 : st.isValid = true
        · have hne : buildFields ml sl st ≠ [] := by
            intro hnil
            rw [loadFieldData] at h
            simp [h1, h2, h3, hnil] at h
          simp [loadFieldData, h1, h2, h3, hne]
        · rw [loadFieldData] at h
          simp [h1, h2, h3] at h
      · rw [loadFieldData] at h
        simp [h1, h2] at h
    · rw [loadFieldData] at h
      simp [h1] at h
  · intro sl st h
    simp [loadMetaData, h]
  · intro st
    simp [wadClose]

/-- A valid, open instance whose banner block was never decrypted (all-zero
IMET, magic mismatch) and with nothing loaded yet. -/
def stValidNoBanner : WiiWADState :=
  { fileOpen := true, isValid := true, wadHeader := hdrScenario,
    ticket := ticketDebug, tmdHeader := zeroTMD, key_idx := Key_Rvt_Debug,
    key_status := VerifyResult.Ok, cbcReader := none,
    contentHeaderRead := true, imet := zeroIMET, fields := [],
    metaData := none }

/-- C7 witness: the theorem applied to a loaded instance: a first successful
`loadFieldData` call followed by a second call that is a no-op, a
`loadMetaData` no-op on an instance with metadata, and the double close. -/
theorem claim_C7_witness :
    loadFieldData (fun _ => none) 1
        (loadFieldData (fun _ => none) 1 stValidNoBanner).2
      = (0, (loadFieldData (fun _ => none) 1 stValidNoBanner).2) ∧
    loadMetaData 1 { stValidNoBanner with metaData := some [] }
      = (0, { stValidNoBanner with metaData := some [] }) ∧
    (wadClose stValidNoBanner).cbcReader = none ∧
    wadClose (wadClose stValidNoBanner) = wadClose stValidNoBanner :=
  ⟨claim_C7.1 (fun _ => none) 1 stValidNoBanner (by decide),
   claim_C7.2.1 1 { stValidNoBanner with metaData := some [] } (by decide),
   claim_C7.2.2 stValidNoBanner⟩

/-- C3: on a valid open instance with no metadata yet, whenever the
decrypted banner text cannot be obtained (`getGameInfo` empty — banner magic
mismatch, decryption unavailable, or empty name strings), `loadMetaData`
returns -EIO (-5) and the state is unchanged: no metadata object is created
or retained. -/
theorem claim_C3 (sysLang : Nat) (st : WiiWADState)
    (hm : st.metaData = none) (hf : st.fileOpen = true)
    (hv : st.isValid = true)
    (hg : getGameInfo st.imet sysLang = []) :
    loadMetaData sysLang st = (-5, st) ∧
    (loadMetaData sysLang st).2.metaData = none := by
  have heq : loadMetaData sysLang st = (-5, st) := by
    simp [loadMetaData, hm, hf, hv, hg]
  exact ⟨heq, by rw [heq]; exact hm⟩

/-- C3 witness: the theorem applied to a valid instance whose banner block
is all zero (magic mismatch), so `getGameInfo` is empty. -/
theorem claim_C3_witness :
    loadMetaData 1 stValidNoBanner = (-5, stValidNoBanner) ∧
    (loadMetaData 1 stValidNoBanner).2.metaData = none :=
  claim_C3 1 stValidNoBanner rfl rfl rfl (by decide)

/-- C9: for a banner block with the expected magic, `getGameInfo` extracts
the fixed-width 21-unit UTF-16BE name lines of the chosen language — the
preferred system language, or English substituted whenever the preferred
language's first line starts with a zero code unit — and joins up to two
lines with a single newline, including the second line only when its first
code unit is nonzero; with a mismatching magic it returns the empty
string. -/
theorem claim_C9 (m : Wii_IMET) (sysLang : Nat) :
    (m.magic ≠ WII_IMET_MAGIC → getGameInfo m sysLang = []) ∧
    (m.magic = WII_IMET_MAGIC → (nameAt m sysLang 0).headD 0 ≠ 0 →
      ((nameAt m sysLang 1).headD 0 ≠ 0 →
        getGameInfo m sysLang =
          utf16Fixed21 (nameAt m sysLang 0) ++ [10] ++
          utf16Fixed21 (nameAt m sysLang 1)) ∧
      ((nameAt m sysLang 1).headD 0 = 0 →
        getGameInfo m sysLang = utf16Fixed21 (nameAt m sysLang 0))) ∧
    (m.magic = WII_IMET_MAGIC → (nameAt m sysLang 0).headD 0 = 0 →
      ((nameAt m WII_LANG_ENGLISH 1).headD 0 ≠ 0 →
        getGameInfo m sysLang =
          utf16Fixed21 (nameAt m WII_LANG_ENGLISH 0) ++ [10] ++
          utf16Fixed21 (nameAt m WII_LANG_ENGLISH 1)) ∧
      ((nameAt m WII_LANG_ENGLISH 1).headD 0 = 0 →
        getGameInfo m sysLang =
          utf16Fixed21 (nameAt m WII_LANG_ENGLISH 0))) := by
  unfold getGameInfo
  refine ⟨fun hm => by simp [hm], fun hm h0 => ?_, fun hm h0 => ?_⟩
  · rw [List.headD_eq_head?_getD] at h0
    constructor
    · intro h1
      rw [List.headD_eq_head?_getD] at h1
      simp [hm, h0, h1]
    · intro h1
      rw [List.headD_eq_head?_getD] at h1
      simp [hm, h0, h1]
  · rw [List.headD_eq_head?_getD] at h0
    constructor
    · intro h1
      rw [List.headD_eq_head?_getD] at h1
      simp [hm, h0, h1]
    · intro h1
      rw [List.headD_eq_head?_getD] at h1
      simp [hm, h0, h1]

/-- A banner whose preferred-language (Japanese, index 0) name is empty and
whose English entry has two nonempty lines "AB" and "CD". -/
def imetSample : Wii_IMET :=
  { magic := WII_IMET_MAGIC,
    names :=
      [List.replicate 2 (List.replicate 21 0),
       [[65, 66] ++ List.replicate 19 0, [67, 68] ++ List.replicate 19 0]] ++
      List.replicate 8 (List.replicate 2 (List.replicate 21 0)) }

/-- C9 witness: the theorem applied to `imetSample` with system language 0:
the empty Japanese first line falls back to English, and the two English
lines are joined by a single newline. -/
theorem claim_C9_witness :
    getGameInfo imetSample 0 = [65, 66, 10, 67, 68] := by
  have h := ((claim_C9 imetSample 0).2.2 rfl (by decide)).1 (by decide)
  rw [h]
  decide

/-- C10: on a valid open instance with no fields yet, `loadFieldData` emits
the Game ID field iff bytes 4 through 7 of the TMD title ID are all
alphanumeric ASCII characters, while the Title ID, Title Version, Region and
Encryption Key fields are emitted either way (so the field list length
varies between valid inputs). -/
theorem claim_C10 (menuLookup : Nat → Option (List Nat)) (sysLang : Nat)
    (st : WiiWADState) (h0 : st.fields = []) (hf : st.fileOpen = true)
    (hv : st.isValid = true) :
    (FieldTag.GameID ∈
        ((loadFieldData menuLookup sysLang st).2.fields.map Prod.fst) ↔
      (isalnumByte (st.tmdHeader.title_id.getD 4 0) ∧
       isalnumByte (st.tmdHeader.title_id.getD 5 0) ∧
       isalnumByte (st.tmdHeader.title_id.getD 6 0) ∧
       isalnumByte (st.tmdHeader.title_id.getD 7 0))) ∧
    FieldTag.TitleID ∈
      ((loadFieldData menuLookup sysLang st).2.fields.map Prod.fst) ∧
    FieldTag.TitleVersion ∈
      ((loadFieldData menuLookup sysLang st).2.fields.map Prod.fst) ∧
    FieldTag.Region ∈
      ((loadFieldData menuLookup sysLang st).2.fields.map Prod.fst) ∧
    FieldTag.EncryptionKey ∈
      ((loadFieldData menuLookup sysLang st).2.fields.map Prod.fst) := by
  simp only [loadFieldData, h0, hf, hv]
  simp [buildFields]
  split_ifs <;> simp_all

/-- A valid open instance whose TMD title ID has the alphanumeric ID4
"ABCE". -/
def stValidGame : WiiWADState :=
  { stValidNoBanner with tmdHeader :=
      { title_id := [0, 1, 0, 1, 65, 66, 67, 69], title_version := 0x0101,
        sys_version := [0, 0, 0, 1, 0, 0, 0, 35] } }

/-- C10 witness: the theorem applied to `stValidGame`, whose ID4 bytes are
all alphanumeric, so the Game ID field is emitted. -/
theorem claim_C10_witness :
    FieldTag.GameID ∈
      ((loadFieldData (fun _ => none) 1 stValidGame).2.fields.map
        Prod.fst) :=
  (claim_C10 (fun _ => none) 1 stValidGame rfl rfl rfl).1.mpr (by decide)

/-- C2: when structural validation succeeds but key lookup/verification
returns one of the four key/crypto outcomes other than Ok, the instance
remains valid and keeps its file handle, `loadFieldData` succeeds and still
emits the fields derivable from the unencrypted ticket and title-metadata
headers, and the first field it adds is the warning string carrying the
VerifyResult explanation. -/
theorem claim_C2 (cipher : List Nat → List Nat → List Nat → List Nat)
    (menuLookup : Nat → Option (List Nat)) (sysLang : Nat)
    (inp : WADInputs) (hopen : inp.fileOpenOk = true)
    (hh : inp.headerReadSize = sizeof_Wii_WAD_Header)
    (hdet : 0 ≤ isRomSupported_static (ctorDetectInfo inp))
    (ht : inp.ticketReadSize = sizeof_RVL_Ticket)
    (htmd : inp.tmdReadSize = sizeof_RVL_TMD_Header)
    (hkey : inp.keyStatus = VerifyResult.KeyNotFound ∨
            inp.keyStatus = VerifyResult.IncorrectKey ∨
            inp.keyStatus = VerifyResult.VerificationDataMissing ∨
            inp.keyStatus = VerifyResult.DecryptionUnsupported) :
    (wiiWADCtor cipher inp).isValid = true ∧
    (wiiWADCtor cipher inp).fileOpen = true ∧
    0 < (loadFieldData menuLookup sysLang (wiiWADCtor cipher inp)).1 ∧
    (loadFieldData menuLookup sysLang (wiiWADCtor cipher inp)).2.fields.head?
      = some (FieldTag.Warning, verifyResultToString inp.keyStatus) ∧
    FieldTag.TitleID ∈
      ((loadFieldData menuLookup sysLang
        (wiiWADCtor cipher inp)).2.fields.map Prod.fst) ∧
    FieldTag.TitleVersion ∈
      ((loadFieldData menuLookup sysLang
        (wiiWADCtor cipher inp)).2.fields.map Prod.fst) ∧
    FieldTag.Region ∈
      ((loadFieldData menuLookup sysLang
        (wiiWADCtor cipher inp)).2.fields.map Prod.fst) ∧
    FieldTag.EncryptionKey ∈
      ((loadFieldData menuLookup sysLang
        (wiiWADCtor cipher inp)).2.fields.map Prod.fst) := by
  have hne : inp.keyStatus ≠ VerifyResult.Ok := by
    rcases hkey with h | h | h | h <;> simp [h]
  have hst : wiiWADCtor cipher inp =
      { fileOpen := true, isValid := true, wadHeader := inp.header,
        ticket := inp.ticket, tmdHeader := inp.tmdHeader,
        key_idx := selectKeyIndex inp.ticket, key_status := inp.keyStatus,
        cbcReader := none, contentHeaderRead := false, imet := zeroIMET,
        fields := [], metaData := none } := by
    simp [wiiWADCtor, initialState, hopen, hh, ht, htmd, hne,
      Int.not_lt.mpr hdet]
  rw [hst]
  simp only [loadFieldData, buildFields]
  simp [hne]
  split_ifs <;> norm_num

/-- A structurally valid constructor run whose key was not found. -/
def inputsBadKey : WADInputs :=
  { inputsOkBase with keyStatus := VerifyResult.KeyNotFound }

/-- C2 witness: the theorem applied to the concrete scenario run with a
KeyNotFound verdict. -/
theorem claim_C2_witness :
    (wiiWADCtor (fun _ _ ct => ct) inputsBadKey).isValid = true ∧
    (wiiWADCtor (fun _ _ ct => ct) inputsBadKey).fileOpen = true ∧
    0 < (loadFieldData (fun _ => none) 1
      (wiiWADCtor (fun _ _ ct => ct) inputsBadKey)).1 ∧
    (loadFieldData (fun _ => none) 1
        (wiiWADCtor (fun _ _ ct => ct) inputsBadKey)).2.fields.head?
      = some (FieldTag.Warning,
          verifyResultToString inputsBadKey.keyStatus) ∧
    FieldTag.TitleID ∈
      ((loadFieldData (fun _ => none) 1
        (wiiWADCtor (fun _ _ ct => ct) inputsBadKey)).2.fields.map
          Prod.fst) ∧
    FieldTag.TitleVersion ∈
      ((loadFieldData (fun _ => none) 1
        (wiiWADCtor (fun _ _ ct => ct) inputsBadKey)).2.fields.map
          Prod.fst) ∧
    FieldTag.Region ∈
      ((loadFieldData (fun _ => none) 1
        (wiiWADCtor (fun _ _ ct => ct) inputsBadKey)).2.fields.map
          Prod.fst) ∧
    FieldTag.EncryptionKey ∈
      ((loadFieldData (fun _ => none) 1
        (wiiWADCtor (fun _ _ ct => ct) inputsBadKey)).2.fields.map
          Prod.fst) :=
  claim_C2 (fun _ _ ct => ct) (fun _ => none) 1 inputsBadKey rfl rfl
    (by decide) rfl rfl (Or.inl rfl)

end WiiWADModel
